import Mathlib

/-!
Verification of the procedural house-geometry generator of LandCraftAi.

The development shallowly embeds the generator of `app.py`:
the layout template library, the furniture synthesizer, the internal and
perimeter wall synthesizers, the landscaping synthesizer, the scene
assembler for both the structured-JSON path (Path A) and the deterministic
template path (Path B), and the SVG floor-plan renderer.

Conventions of the embedding:
* Python floats are modelled as exact rationals (`ℚ`); all literals of the
  source are exactly representable.
* A trimesh primitive created centred at the origin and then translated is
  recorded by its extents/radii together with its final centre point.
* A scene is the list of named nodes in insertion order.
* Python dictionaries coming from parsed JSON are modelled by the `PyVal`
  type; `dict.get` with defaults, truthiness, iteration and the
  `AttributeError`/`TypeError` failures of the source are modelled
  explicitly, with `Option.none` playing the role of a raised exception
  that the caller catches.
-/

namespace LandCraft

/-! ### String helpers

The source relies on Python `str.lower` and the `in` substring test.  They
are re-implemented over character lists so that they evaluate by kernel
reduction; behaviour agrees with Python on the ASCII strings the program
uses.  -/

/-- Python `str.lower` for the ASCII names used by the program. -/
def lowerStr (s : String) : String := String.mk (s.data.map Char.toLower)

/-- Python `needle in hay` substring test. -/
def strContainsB (hay needle : String) : Bool :=
  hay.data.tails.any (fun t => needle.data.isPrefixOf t)

/-- Test that `p` is a prefix of `s`. -/
def strStarts (s p : String) : Bool := p.data.isPrefixOf s.data

/-- Test that `p` is a suffix of `s`. -/
def strEnds (s p : String) : Bool := p.data.reverse.isPrefixOf s.data.reverse

/-! ### Numeric helpers -/

/-- Python `abs`. -/
def pyabs (q : ℚ) : ℚ := if q < 0 then -q else q

/-- Python `max(l or [d])`: the maximum of a list, or `d` when it is empty.
The source applies `max` only to lists that are non-empty unless the
`or [d]` default is written, so the empty case is exercised exactly where
the source writes the default. -/
def pymax : List ℚ → ℚ → ℚ
  | [], d => d
  | x :: xs, _ => xs.foldl max x

/-! ### Geometry and scene model -/

/-- A trimesh solid: its creation extents (or radius/height) and the centre
it was translated to. -/
inductive Geom where
  | box (ex ey ez cx cy cz : ℚ)
  | cylinder (radius height cx cy cz : ℚ)
  | cone (radius height cx cy cz : ℚ)
deriving DecidableEq

/-- A named, coloured scene node (the argument of `scene.add_geometry`). -/
structure Node where
  name : String
  geom : Geom
  color : List ℕ
deriving DecidableEq

/-- A scene is its list of nodes in insertion order. -/
abbrev Scene := List Node

/-- Least x-coordinate of a solid's footprint. -/
def geomMinX : Geom → ℚ
  | .box ex _ _ cx _ _ => cx - ex / 2
  | .cylinder r _ cx _ _ => cx - r
  | .cone r _ cx _ _ => cx - r

/-- Greatest x-coordinate of a solid's footprint. -/
def geomMaxX : Geom → ℚ
  | .box ex _ _ cx _ _ => cx + ex / 2
  | .cylinder r _ cx _ _ => cx + r
  | .cone r _ cx _ _ => cx + r

/-- Least y-coordinate of a solid's footprint. -/
def geomMinY : Geom → ℚ
  | .box _ ey _ _ cy _ => cy - ey / 2
  | .cylinder r _ _ cy _ => cy - r
  | .cone r _ _ cy _ => cy - r

/-- Greatest y-coordinate of a solid's footprint. -/
def geomMaxY : Geom → ℚ
  | .box _ ey _ _ cy _ => cy + ey / 2
  | .cylinder r _ _ cy _ => cy + r
  | .cone r _ _ cy _ => cy + r

/-- Footprint of node `n` lies inside the footprint of node `f`. -/
def nodeCovered (f n : Node) : Prop :=
  geomMinX f.geom ≤ geomMinX n.geom ∧ geomMinY f.geom ≤ geomMinY n.geom ∧
  geomMaxX n.geom ≤ geomMaxX f.geom ∧ geomMaxY n.geom ≤ geomMaxY f.geom

/-! ### Layout template library (`generate_realistic_house_glb`, room tables) -/

/-- A template room: semantic name, origin `(x, y)`, width, depth, height
and the colour recorded in the table. -/
structure Room3 where
  name : String
  x : ℚ
  y : ℚ
  w : ℚ
  d : ℚ
  h : ℚ
  color : List ℕ
deriving DecidableEq

/-- The 1-BHK room table of `generate_realistic_house_glb`. -/
def layout1 : List Room3 :=
  [⟨"Living Room", 0, 0, 4, 5, 3, [150, 200, 150, 255]⟩,
   ⟨"Bedroom", 4.5, 0, 4, 4, 3, [200, 150, 150, 255]⟩,
   ⟨"Kitchen", 0, 5.5, 3, 3, 3, [150, 150, 200, 255]⟩,
   ⟨"Bathroom", 4.5, 4.5, 2, 2, 3, [200, 200, 150, 255]⟩]

/-- The 2-BHK room table of `generate_realistic_house_glb`. -/
def layout2 : List Room3 :=
  [⟨"Living Room", 0, 0, 5, 4, 3, [150, 200, 150, 255]⟩,
   ⟨"Bedroom 1", 5.5, 0, 4, 4, 3, [200, 150, 150, 255]⟩,
   ⟨"Bedroom 2", 10, 0, 3.5, 4, 3, [200, 150, 150, 255]⟩,
   ⟨"Kitchen", 0, 4.5, 3, 3.5, 3, [150, 150, 200, 255]⟩,
   ⟨"Bathroom", 3.5, 4.5, 2, 2.5, 3, [200, 200, 150, 255]⟩,
   ⟨"Dining", 6, 4.5, 3, 3, 3, [180, 150, 200, 255]⟩]

/-- The 3-BHK room table of `generate_realistic_house_glb`. -/
def layout3 : List Room3 :=
  [⟨"Living Room", 0, 0, 5, 5, 3, [150, 200, 150, 255]⟩,
   ⟨"Bedroom 1", 5.5, 0, 4, 4, 3, [200, 150, 150, 255]⟩,
   ⟨"Bedroom 2", 10, 0, 3.5, 4, 3, [200, 150, 150, 255]⟩,
   ⟨"Bedroom 3", 0, 5.5, 3.5, 4, 3, [200, 150, 150, 255]⟩,
   ⟨"Kitchen", 4, 5.5, 3, 3, 3, [150, 150, 200, 255]⟩,
   ⟨"Bathroom 1", 7.5, 5.5, 2, 2, 3, [200, 200, 150, 255]⟩,
   ⟨"Bathroom 2", 10, 5.5, 2, 2, 3, [200, 200, 150, 255]⟩,
   ⟨"Dining", 4, 9, 3.5, 3, 3, [180, 150, 200, 255]⟩]

/-- The 4-BHK room table of `generate_realistic_house_glb` (the `else`
branch of the selection). -/
def layout4 : List Room3 :=
  [⟨"Living Room", 0, 0, 6, 5, 3, [150, 200, 150, 255]⟩,
   ⟨"Bedroom 1", 6.5, 0, 4, 4.5, 3, [200, 150, 150, 255]⟩,
   ⟨"Bedroom 2", 11, 0, 4, 4, 3, [200, 150, 150, 255]⟩,
   ⟨"Bedroom 3", 0, 5.5, 4, 4, 3, [200, 150, 150, 255]⟩,
   ⟨"Bedroom 4", 4.5, 5.5, 3.5, 4, 3, [200, 150, 150, 255]⟩,
   ⟨"Kitchen", 8.5, 5.5, 3.5, 3, 3, [150, 150, 200, 255]⟩,
   ⟨"Bathroom 1", 12.5, 5.5, 2, 2, 3, [200, 200, 150, 255]⟩,
   ⟨"Bathroom 2", 0, 10, 2, 2, 3, [200, 200, 150, 255]⟩,
   ⟨"Dining", 2.5, 10, 4, 3.5, 3, [180, 150, 200, 255]⟩]

/-- The `if bhk == 1 / elif bhk == 2 / elif bhk == 3 / else` selection of
`generate_realistic_house_glb`. -/
def layoutRooms (bhk : ℤ) : List Room3 :=
  if bhk = 1 then layout1
  else if bhk = 2 then layout2
  else if bhk = 3 then layout3
  else layout4

/-- Rectangle intersection area of the footprints of two rooms. -/
def interArea (a b : Room3) : ℚ :=
  max 0 (min (a.x + a.w) (b.x + b.w) - max a.x b.x) *
  max 0 (min (a.y + a.d) (b.y + b.d) - max a.y b.y)

/-! ### Furniture synthesizer (`create_furniture`) -/

/-- A furniture item before it is renamed and added to the scene. -/
structure Furn where
  fname : String
  geom : Geom
  fcolor : List ℕ
deriving DecidableEq

/-- `create_furniture(room_type, x, y, z, room_w, room_d)`:
keyword-keyed furniture fabrication, first match wins in the order
bedroom, living, kitchen, dining, bathroom. -/
def create_furniture (room_type : String) (x y z room_w room_d : ℚ) : List Furn :=
  if strContainsB (lowerStr room_type) "bedroom" then
    [⟨"Bed", .box 1.8 2.0 0.5 (x + room_w / 2) (y + room_d / 2) (z + 0.25), [139, 69, 19, 255]⟩,
     ⟨"Nightstand", .box 0.4 0.4 0.5 (x + room_w / 2 + 1.2) (y + room_d / 2) (z + 0.25),
       [160, 82, 45, 255]⟩]
  else if strContainsB (lowerStr room_type) "living" then
    [⟨"Sofa", .box 2.0 0.8 0.7 (x + room_w / 2) (y + 1.0) (z + 0.35), [70, 130, 180, 255]⟩,
     ⟨"Table", .box 1.0 0.6 0.4 (x + room_w / 2) (y + 2.2) (z + 0.2), [139, 69, 19, 255]⟩]
  else if strContainsB (lowerStr room_type) "kitchen" then
    [⟨"Counter", .box (room_w - 0.5) 0.6 0.9 (x + room_w / 2) (y + 0.5) (z + 0.45),
       [192, 192, 192, 255]⟩]
  else if strContainsB (lowerStr room_type) "dining" then
    [⟨"Dining_Table", .box 1.5 1.0 0.75 (x + room_w / 2) (y + room_d / 2) (z + 0.375),
       [139, 69, 19, 255]⟩]
  else if strContainsB (lowerStr room_type) "bathroom" then
    [⟨"Toilet", .cylinder 0.25 0.4 (x + 0.5) (y + 0.5) (z + 0.2), [255, 255, 255, 255]⟩]
  else []

/-! ### Landscaping synthesizer (`create_outdoor_plants`) -/

/-- `create_outdoor_plants(scene, max_x, max_y, z)`: four trees, each a
trunk cylinder plus a foliage cone, at fixed offsets outside the house. -/
def create_outdoor_plants (max_x max_y z : ℚ) : List Node :=
  (([((-1.5 : ℚ), (2 : ℚ), "Tree_1"),
     (-1.5, max_y - 2, "Tree_2"),
     (max_x + 1.5, 2, "Tree_3"),
     (max_x + 1.5, max_y - 2, "Tree_4")] : List (ℚ × ℚ × String)).map
    (fun p =>
      [⟨p.2.2 ++ "_trunk", .cylinder 0.15 1.5 p.1 p.2.1 (z + 0.75), [101, 67, 33, 255]⟩,
       ⟨p.2.2 ++ "_foliage", .cone 0.8 1.5 p.1 p.2.1 (z + 2.25), [34, 139, 34, 255]⟩])).flatten

/-! ### Internal wall synthesizer (`create_internal_walls`) -/

/-- Shared-edge test of the source, vertical case: room 1's right edge
coincides with room 2's left edge within the 0.1 tolerance, and the rooms'
y-ranges are not disjoint. -/
def vertAdjacent (r1 r2 : Room3) : Prop :=
  pyabs (r1.x + r1.w - r2.x) < 0.1 ∧ ¬(r1.y + r1.d < r2.y ∨ r2.y + r2.d < r1.y)

/-- Shared-edge test of the source, horizontal case: room 1's top edge
coincides with room 2's bottom edge within the 0.1 tolerance, and the
rooms' x-ranges are not disjoint. -/
def horizAdjacent (r1 r2 : Room3) : Prop :=
  pyabs (r1.y + r1.d - r2.y) < 0.1 ∧ ¬(r1.x + r1.w < r2.x ∨ r2.x + r2.w < r1.x)

instance (r1 r2 : Room3) : Decidable (vertAdjacent r1 r2) := by
  unfold vertAdjacent; infer_instance

instance (r1 r2 : Room3) : Decidable (horizAdjacent r1 r2) := by
  unfold horizAdjacent; infer_instance

/-- The vertical wall solid emitted for a detected pair (room 1 left of
room 2): it spans the y-overlap of the two rooms at room 1's right edge.
The node name uses the outer loop index `i` only, as in the source. -/
def vWallNode (i : ℕ) (wt wh z : ℚ) (r1 r2 : Room3) : Node :=
  ⟨"Wall_internal_" ++ toString i ++ "_" ++ toString (i + 1),
   .box wt (min (r1.y + r1.d) (r2.y + r2.d) - max r1.y r2.y) wh
     (r1.x + r1.w) ((max r1.y r2.y + min (r1.y + r1.d) (r2.y + r2.d)) / 2) (z + wh / 2),
   [220, 220, 220, 255]⟩

/-- The horizontal wall solid emitted for a detected pair (room 1 below
room 2): it spans the x-overlap of the two rooms at room 1's top edge. -/
def hWallNode (i : ℕ) (wt wh z : ℚ) (r1 r2 : Room3) : Node :=
  ⟨"Wall_internal_" ++ toString i ++ "_" ++ toString (i + 1) ++ "_h",
   .box (min (r1.x + r1.w) (r2.x + r2.w) - max r1.x r2.x) wt wh
     ((max r1.x r2.x + min (r1.x + r1.w) (r2.x + r2.w)) / 2) (r1.y + r1.d) (z + wh / 2),
   [220, 220, 220, 255]⟩

/-- Body of the source's pairwise loop for one ordered pair: the vertical
test, `elif` the horizontal test, each guarded by a positive-overlap check. -/
def wallsForPair (i : ℕ) (wt wh z : ℚ) (r1 r2 : Room3) : List Node :=
  if vertAdjacent r1 r2 then
    if min (r1.y + r1.d) (r2.y + r2.d) > max r1.y r2.y then [vWallNode i wt wh z r1 r2] else []
  else if horizAdjacent r1 r2 then
    if min (r1.x + r1.w) (r2.x + r2.w) > max r1.x r2.x then [hWallNode i wt wh z r1 r2] else []
  else []

/-- The `for i, room1 in enumerate(rooms): for room2 in rooms[i+1:]` scan. -/
def internalWallsGo (wt wh z : ℚ) : ℕ → List Room3 → List Node
  | _, [] => []
  | i, r1 :: rest =>
      (rest.map (wallsForPair i wt wh z r1)).flatten ++ internalWallsGo wt wh z (i + 1) rest

/-- `create_internal_walls(scene, rooms, wall_thickness, wall_height, z)`. -/
def create_internal_walls (rooms : List Room3) (wt wh z : ℚ) : List Node :=
  internalWallsGo wt wh z 0 rooms

/-! ### Perimeter walls, ground and driveway (`generate_realistic_house_glb`) -/

/-- The beige floor slab added for each template room. -/
def roomFloorNode (room : Room3) : Node :=
  ⟨room.name ++ "_floor",
   .box room.w room.d 0.05 (room.x + room.w / 2) (room.y + room.d / 2) 0.025,
   [245, 245, 220, 255]⟩

/-- Furniture of one template room, renamed `{room}_{item}` as in the
source (furniture is synthesized at z = 0.05, on top of the floor slab). -/
def furnNodes (room : Room3) : List Node :=
  (create_furniture room.name room.x room.y 0.05 room.w room.d).map
    (fun fu => ⟨room.name ++ "_" ++ fu.fname, fu.geom, fu.fcolor⟩)

/-- The grass ground slab. -/
def groundNode (mx my : ℚ) : Node :=
  ⟨"Ground", .box (mx + 4) (my + 4) 0.1 (mx / 2) (my / 2) (-0.05), [144, 238, 144, 255]⟩

/-- North perimeter wall: flush against the outside of the y = 0 edge. -/
def wall_north (mx : ℚ) : Node :=
  ⟨"Wall_North", .box (mx + 0.25) 0.25 3.5 (mx / 2) (-0.25 / 2) (3.5 / 2), [210, 180, 140, 255]⟩

/-- South perimeter wall: flush against the outside of the y = maxY edge. -/
def wall_south (mx my : ℚ) : Node :=
  ⟨"Wall_South", .box (mx + 0.25) 0.25 3.5 (mx / 2) (my + 0.25 / 2) (3.5 / 2), [210, 180, 140, 255]⟩

/-- East perimeter wall: flush against the outside of the x = 0 edge. -/
def wall_east (my : ℚ) : Node :=
  ⟨"Wall_East", .box 0.25 my 3.5 (-0.25 / 2) (my / 2) (3.5 / 2), [210, 180, 140, 255]⟩

/-- West perimeter wall: flush against the outside of the x = maxX edge. -/
def wall_west (mx my : ℚ) : Node :=
  ⟨"Wall_West", .box 0.25 my 3.5 (mx + 0.25 / 2) (my / 2) (3.5 / 2), [210, 180, 140, 255]⟩

/-- The concrete driveway slab on the fixed west side. -/
def drivewayNode (my : ℚ) : Node :=
  ⟨"Driveway", .box 2 (my + 4) 0.08 (-2) (my / 2) 0.04, [128, 128, 128, 255]⟩

/-- `generate_realistic_house_glb(bhk, sqft)`: the Path-B scene.  The
source also computes `side_length = sqrt(total_area_m2)`; like
`total_area_m2` it is never used in any geometry, so only the latter is
kept (as a dead binding) in the embedding. -/
def generate_realistic_house_glb (bhk : ℤ) (sqft : ℚ) : Scene :=
  let _total_area_m2 := sqft * 0.092903
  let rooms := layoutRooms bhk
  let roomNodes := (rooms.map (fun room => roomFloorNode room :: furnNodes room)).flatten
  let max_x := pymax (rooms.map (fun r => r.x + r.w)) 0
  let max_y := pymax (rooms.map (fun r => r.y + r.d)) 0
  roomNodes
    ++ [groundNode max_x max_y]
    ++ [wall_north max_x, wall_south max_x max_y, wall_east max_y, wall_west max_x max_y]
    ++ create_internal_walls rooms 0.15 3.5 0
    ++ create_outdoor_plants max_x max_y 0
    ++ [drivewayNode max_y]

/-! ### Structured JSON values (`generate_glb_from_json`, Path A)

`PyVal` models the Python values reachable from parsed JSON.  Operations
that raise in Python (`.get` on a non-dict, `.lower()` on a non-string,
arithmetic on a non-number, iterating a non-iterable) are modelled by
`Option.none`; the `try/except` of `generate_glb_from_json` catches every
such failure and falls back to the template path. -/

/-- A Python value produced by `json.loads`. -/
inductive PyVal where
  | none : PyVal
  | num : ℚ → PyVal
  | str : String → PyVal
  | list : List PyVal → PyVal
  | dict : List (String × PyVal) → PyVal

/-- Python truthiness, as used by `if rooms:`. -/
def PyVal.truthy : PyVal → Bool
  | .none => false
  | .num q => !(decide (q = 0))
  | .str s => !s.data.isEmpty
  | .list xs => !xs.isEmpty
  | .dict kvs => !kvs.isEmpty

/-- Lookup of a key in a dict's entry list (Python dict keys are unique,
so first match suffices). -/
def dgetOpt (kvs : List (String × PyVal)) (k : String) : Option PyVal :=
  (kvs.find? (fun kv => kv.1 == k)).map (fun kv => kv.2)

/-- Python `d.get(k, default)` on a dict's entry list. -/
def dget (kvs : List (String × PyVal)) (k : String) (d : PyVal) : PyVal :=
  (dgetOpt kvs k).getD d

/-- View a value as a number; anything else raises when used in
arithmetic. -/
def asNum : PyVal → Option ℚ
  | .num q => some q
  | _ => none

/-- View a value as a dict; `.get` on anything else raises
`AttributeError`. -/
def asObj : PyVal → Option (List (String × PyVal))
  | .dict kvs => some kvs
  | _ => none

/-- Python `for x in v`: lists yield elements, strings their characters,
dicts their keys; numbers and `None` raise `TypeError`. -/
def pyIter : PyVal → Option (List PyVal)
  | .list xs => some xs
  | .str s => some (s.data.map (fun c => .str (String.mk [c])))
  | .dict kvs => some (kvs.map (fun kv => .str kv.1))
  | _ => none

/-- The `rooms` variable of `generate_glb_from_json`:
`room_data["rooms"]` when `room_data` is a dict containing that key,
`None` otherwise. -/
def roomsOf : PyVal → PyVal
  | .dict kvs => (dgetOpt kvs "rooms").getD .none
  | _ => .none

/-- The fields the per-room loop of `generate_glb_from_json` extracts from
one room entry, with dimensions already converted ft→m. -/
structure RoomParsed where
  nameField : Option String
  px : ℚ
  py : ℚ
  lengthM : ℚ
  widthM : ℚ
  heightM : ℚ
deriving DecidableEq

/-- One iteration of the per-room loop: `.get` with the source's default
dicts, ft→m conversion by division by 3.28, and `.lower()` on the name.
A room entry that is not a dict, a `dimensions`/`position` value that is
not a dict, a non-numeric dimension or position, or a non-string name
raises (yields `none`); a *missing* key is silently replaced by the
default. -/
def parseRoom (room : PyVal) : Option RoomParsed := do
  let kvs ← asObj room
  let dims ← asObj (dget kvs "dimensions"
    (.dict [("length", .num 10), ("width", .num 10), ("height", .num 10)]))
  let pos ← asObj (dget kvs "position"
    (.dict [("x", .num 0), ("y", .num 0), ("z", .num 0)]))
  let lengthM := (← asNum (dget dims "length" (.num 10))) / 3.28
  let widthM := (← asNum (dget dims "width" (.num 10))) / 3.28
  let heightM := (← asNum (dget dims "height" (.num 10))) / 3.28
  let px ← asNum (dget pos "x" (.num 0))
  let py ← asNum (dget pos "y" (.num 0))
  let nameField ← match dgetOpt kvs "name" with
    | Option.none => pure Option.none
    | some (.str s) => pure (Option.some s)
    | some _ => Option.none
  pure ⟨nameField, px, py, lengthM, widthM, heightM⟩

/-- The colour table of `generate_glb_from_json`, in insertion order. -/
def room_colors : List (String × List ℕ) :=
  [("bedroom", [200, 150, 150, 255]),
   ("living", [150, 200, 150, 255]),
   ("kitchen", [150, 150, 200, 255]),
   ("bathroom", [200, 200, 150, 255]),
   ("dining", [180, 150, 200, 255]),
   ("default", [180, 180, 180, 255])]

/-- First colour whose keyword occurs in the lowered room name; default
gray otherwise. -/
def colorFor (room_type : String) : List ℕ :=
  ((room_colors.find? (fun kc => strContainsB room_type kc.1)).map (fun kc => kc.2)).getD
    [180, 180, 180, 255]

/-- The box node added for one structured room: extents are the converted
dimensions and the box is *centred* at the given `(x, y)` position, with
z-centre at half its height.  The node name defaults to `"room"`. -/
def roomNode (r : RoomParsed) : Node :=
  ⟨r.nameField.getD "room",
   .box r.lengthM r.widthM r.heightM r.px r.py (r.heightM / 2),
   colorFor (lowerStr (r.nameField.getD ""))⟩

/-- `max_x` of the Path-A floor: maximum of position + converted length
over the rooms, `10` when the comprehension is empty (`or [10]`). -/
def pathAMaxX (rs : List RoomParsed) : ℚ :=
  pymax (rs.map (fun r => r.px + r.lengthM)) 10

/-- `max_y` of the Path-A floor. -/
def pathAMaxY (rs : List RoomParsed) : ℚ :=
  pymax (rs.map (fun r => r.py + r.widthM)) 10

/-- The single Path-A floor slab: extents `(max_x+2, max_y+2, 0.1)`
centred at `(max_x/2, max_y/2, -0.05)`. -/
def floorNode (mx my : ℚ) : Node :=
  ⟨"floor", .box (mx + 2) (my + 2) 0.1 (mx / 2) (my / 2) (-0.05), [220, 220, 220, 255]⟩

/-- The whole Path-A body: iterate the rooms value, process every room,
then append the floor slab.  `none` models an exception reaching the
`except` clause. -/
def buildPathA (rv : PyVal) : Option Scene := do
  let items ← pyIter rv
  let rs ← items.mapM parseRoom
  pure (rs.map roomNode ++ [floorNode (pathAMaxX rs) (pathAMaxY rs)])

/-- `generate_glb_from_json(room_data, bhk, sqft)`: Path A when a truthy
`rooms` value is present and processing succeeds; the Path-B template
scene when `rooms` is absent/falsy or any exception occurs. -/
def generate_glb_from_json (room_data : PyVal) (bhk : ℤ) (sqft : ℚ) : Scene :=
  let rooms := roomsOf room_data
  if rooms.truthy then
    match buildPathA rooms with
    | some s => s
    | Option.none => generate_realistic_house_glb bhk sqft
  else
    generate_realistic_house_glb bhk sqft

/-! ### SVG floor-plan renderer (`generate_svg_floor_plan`) -/

/-- A 2D floor-plan room of the SVG templates (integer pixels). -/
structure SvgRoom where
  name : String
  x : ℤ
  y : ℤ
  w : ℤ
  h : ℤ
deriving DecidableEq

/-- The 1-BHK SVG table. -/
def svgLayout1 : List SvgRoom :=
  [⟨"Living", 50, 50, 300, 250⟩, ⟨"Bedroom", 400, 50, 300, 250⟩,
   ⟨"Kitchen", 50, 350, 200, 150⟩, ⟨"Bathroom", 300, 350, 150, 150⟩]

/-- The 2-BHK SVG table. -/
def svgLayout2 : List SvgRoom :=
  [⟨"Living", 50, 50, 250, 200⟩, ⟨"Bedroom 1", 350, 50, 200, 200⟩,
   ⟨"Bedroom 2", 600, 50, 200, 200⟩, ⟨"Kitchen", 50, 300, 180, 150⟩,
   ⟨"Bathroom", 280, 300, 150, 150⟩]

/-- The 3-BHK SVG table. -/
def svgLayout3 : List SvgRoom :=
  [⟨"Living", 50, 50, 220, 180⟩, ⟨"Bedroom 1", 320, 50, 180, 180⟩,
   ⟨"Bedroom 2", 550, 50, 180, 180⟩, ⟨"Bedroom 3", 50, 280, 180, 180⟩,
   ⟨"Kitchen", 280, 280, 150, 130⟩, ⟨"Bath 1", 480, 280, 120, 130⟩]

/-- The 4-plus SVG table (the `else` branch). -/
def svgLayout4 : List SvgRoom :=
  [⟨"Living", 50, 50, 200, 150⟩, ⟨"Dining", 300, 50, 150, 150⟩,
   ⟨"BR 1", 500, 50, 150, 150⟩, ⟨"BR 2", 700, 50, 150, 150⟩,
   ⟨"BR 3", 50, 250, 150, 150⟩, ⟨"Kitchen", 250, 250, 150, 130⟩]

/-- The `if bhk == 1 / elif / elif / else` selection of
`generate_svg_floor_plan`. -/
def svgRooms (bhk : ℤ) : List SvgRoom :=
  if bhk = 1 then svgLayout1
  else if bhk = 2 then svgLayout2
  else if bhk = 3 then svgLayout3
  else svgLayout4

/-- The rect-plus-centred-label markup appended for one room.  Python `//`
is floor division; every coordinate in the tables is non-negative, where
it agrees with `Int` division. -/
def svgRect (room : SvgRoom) : String :=
  "<rect x=\"" ++ toString room.x ++ "\" y=\"" ++ toString room.y ++
  "\" width=\"" ++ toString room.w ++ "\" height=\"" ++ toString room.h ++
  "\" fill=\"white\" stroke=\"#333\" stroke-width=\"2\"/>" ++
  "<text x=\"" ++ toString (room.x + room.w / 2) ++
  "\" y=\"" ++ toString (room.y + room.h / 2) ++
  "\" text-anchor=\"middle\" font-size=\"14\" fill=\"#333\">" ++
  room.name ++ "</text>"

/-- `generate_svg_floor_plan(bhk, sqft)`: the fixed 800×600 canvas, the
background rect, one rect+label per template room.  `sqft` is accepted
and never used, as in the source. -/
def generate_svg_floor_plan (bhk : ℤ) (sqft : ℚ) : String :=
  let width : ℤ := 800
  let height : ℤ := 600
  "<svg width=\"" ++ toString width ++ "\" height=\"" ++ toString height ++
    "\" xmlns=\"http://www.w3.org/2000/svg\">" ++
  "<rect width=\"100%\" height=\"100%\" fill=\"#f5f5f5\"/>" ++
  String.join ((svgRooms bhk).map svgRect) ++
  "</svg>"

/-! ### Derived measures and concrete sample inputs -/

/-- The `max_x` of the template path for a given room count. -/
def templateMaxX (bhk : ℤ) : ℚ := pymax ((layoutRooms bhk).map (fun r => r.x + r.w)) 0

/-- The `max_y` of the template path for a given room count. -/
def templateMaxY (bhk : ℤ) : ℚ := pymax ((layoutRooms bhk).map (fun r => r.y + r.d)) 0

/-- Vertical (z) extent of a solid. -/
def geomZExtent : Geom → ℚ
  | .box _ _ ez _ _ _ => ez
  | .cylinder _ h _ _ _ => h
  | .cone _ h _ _ _ => h

/-- Planar thickness of a solid: the smaller footprint extent. -/
def geomPlanarThickness : Geom → ℚ
  | .box ex ey _ _ _ _ => min ex ey
  | .cylinder r _ _ _ _ => 2 * r
  | .cone r _ _ _ _ => 2 * r

instance (f n : Node) : Decidable (nodeCovered f n) := by
  unfold nodeCovered; infer_instance

/-- Structured input whose single room entry is a dict that merely lacks
the `dimensions` and `position` keys. -/
def sampleMissingDims : PyVal :=
  PyVal.dict [("rooms", PyVal.list [PyVal.dict [("name", PyVal.str "Master Bedroom")]])]

/-- Structured input whose single room entry is not a dict (calling
`.get` on it raises `AttributeError`). -/
def sampleBadRoomEntry : PyVal :=
  PyVal.dict [("rooms", PyVal.list [PyVal.num 5])]

/-- A well-formed structured input: one fully specified room entry
carrying every key (`name`, complete `dimensions`, complete `position`)
with well-typed, positive values — a 10×10×10 ft room at the origin.  Its
box is centred at `(0, 0)` with half-extent `(10/3.28)/2 ≈ 1.52`. -/
def sampleCenteredRoom : PyVal :=
  PyVal.dict [("rooms", PyVal.list
    [PyVal.dict [("name", PyVal.str "Living Area"),
                 ("dimensions", PyVal.dict
                   [("length", PyVal.num 10), ("width", PyVal.num 10), ("height", PyVal.num 10)]),
                 ("position", PyVal.dict
                   [("x", PyVal.num 0), ("y", PyVal.num 0), ("z", PyVal.num 0)])]])]

/-- A well-formed one-room structured description: 8.2 ft = 2.5 m cube at
position (2, 3). -/
def samplePathARooms : List PyVal :=
  [PyVal.dict [("name", PyVal.str "kitchen"),
    ("dimensions", PyVal.dict
      [("length", PyVal.num 8.2), ("width", PyVal.num 8.2), ("height", PyVal.num 8.2)]),
    ("position", PyVal.dict [("x", PyVal.num 2), ("y", PyVal.num 3)])]]

/-- The parse of `samplePathARooms`. -/
def samplePathAParsed : List RoomParsed :=
  [⟨some "kitchen", 2, 3, 5 / 2, 5 / 2, 5 / 2⟩]

/-! ### Helper lemmas -/

/-- The area argument reaches only the dead `total_area_m2` binding, so
the Path-B scene can be evaluated at any area. -/
theorem grh_sqft_eq (bhk : ℤ) (sqft : ℚ) :
    generate_realistic_house_glb bhk sqft = generate_realistic_house_glb bhk 0 := rfl

/-- The layout selection always lands in one of the four tables. -/
theorem layoutRooms_mem (bhk : ℤ) :
    layoutRooms bhk = layout1 ∨ layoutRooms bhk = layout2 ∨
    layoutRooms bhk = layout3 ∨ layoutRooms bhk = layout4 := by
  unfold layoutRooms
  split_ifs <;> simp

/-- The SVG layout selection always lands in one of the four tables. -/
theorem svgRooms_mem (bhk : ℤ) :
    svgRooms bhk = svgLayout1 ∨ svgRooms bhk = svgLayout2 ∨
    svgRooms bhk = svgLayout3 ∨ svgRooms bhk = svgLayout4 := by
  unfold svgRooms
  split_ifs <;> simp

/-- The seed of a left max-fold bounds the fold from below. -/
theorem le_foldl_max (l : List ℚ) (a : ℚ) : a ≤ l.foldl max a := by
  induction l generalizing a with
  | nil => exact le_refl a
  | cons b t ih => exact le_trans (le_max_left a b) (ih (max a b))

/-- Every member of a list bounds its left max-fold from below. -/
theorem mem_le_foldl_max (l : List ℚ) (a x : ℚ) (hx : x ∈ l) : x ≤ l.foldl max a := by
  induction l generalizing a with
  | nil => cases hx
  | cons b t ih =>
    rcases List.mem_cons.mp hx with h | h
    · subst h
      exact le_trans (le_max_right a x) (le_foldl_max t (max a x))
    · exact ih (max a b) h

/-- `pymax` dominates every member of its list. -/
theorem pymax_ge (l : List ℚ) (d x : ℚ) (hx : x ∈ l) : x ≤ pymax l d := by
  cases l with
  | nil => cases hx
  | cons b t =>
    rcases List.mem_cons.mp hx with h | h
    · subst h
      exact le_foldl_max t x
    · exact mem_le_foldl_max t b x h

/-! ### Claim theorems -/

/-- C2, counterexample.  Room count 0 does not select the 1-BHK template:
both the 3D and the 2D layout selections send 0 to the 4-plus (`else`)
template. -/
theorem bhk_zero_selects_four_plus :
    layoutRooms 0 = layout4 ∧ layoutRooms 0 ≠ layout1 ∧
    svgRooms 0 = svgLayout4 ∧ svgRooms 0 ≠ svgLayout1 := by
  refine ⟨rfl, ?_, rfl, ?_⟩ <;> with_unfolding_all decide

/-- C2, amended.  The layout selection is total and never fails: room
counts 1, 2 and 3 select their own templates, and every other integer
room count — including 0, negatives, and everything ≥ 4 — selects the
4-plus template (not the 1-BHK template); the selected table is never
empty.  This holds for both the 3D scene templates and the SVG
templates. -/
theorem layout_selection_total (bhk : ℤ) (h : bhk ≤ 0 ∨ 4 ≤ bhk) :
    layoutRooms bhk = layout4 ∧ svgRooms bhk = svgLayout4 ∧ layoutRooms bhk ≠ [] ∧
    layoutRooms 1 = layout1 ∧ layoutRooms 2 = layout2 ∧ layoutRooms 3 = layout3 ∧
    svgRooms 1 = svgLayout1 ∧ svgRooms 2 = svgLayout2 ∧ svgRooms 3 = svgLayout3 := by
  have h1 : bhk ≠ 1 := by omega
  have h2 : bhk ≠ 2 := by omega
  have h3 : bhk ≠ 3 := by omega
  refine ⟨?_, ?_, ?_, rfl, rfl, rfl, rfl, rfl, rfl⟩
  · unfold layoutRooms
    rw [if_neg h1, if_neg h2, if_neg h3]
  · unfold svgRooms
    rw [if_neg h1, if_neg h2, if_neg h3]
  · unfold layoutRooms
    rw [if_neg h1, if_neg h2, if_neg h3]
    with_unfolding_all decide

/-- C2, witness for `layout_selection_total` at room count 0. -/
theorem layout_selection_total_witness :
    layoutRooms 0 = layout4 ∧ svgRooms 0 = svgLayout4 ∧ layoutRooms 0 ≠ [] ∧
    layoutRooms 1 = layout1 ∧ layoutRooms 2 = layout2 ∧ layoutRooms 3 = layout3 ∧
    svgRooms 1 = svgLayout1 ∧ svgRooms 2 = svgLayout2 ∧ svgRooms 3 = svgLayout3 :=
  layout_selection_total 0 (Or.inl (by norm_num))

/-- C4, counterexample.  In the 1-BHK template no two rooms come within
the 0.1 adjacency tolerance (every facing-edge gap is 0.5), so the
internal-wall synthesizer, run exactly as the scene builder runs it,
emits no wall at all. -/
theorem template1_emits_no_internal_wall :
    layoutRooms 1 = layout1 ∧ create_internal_walls layout1 0.15 3.5 0 = [] := by
  refine ⟨rfl, ?_⟩
  with_unfolding_all decide

/-- C4, amended.  For every room-count category the template rooms are
separated by gaps exceeding the 0.1 adjacency tolerance, so the
internal-wall synthesizer emits no internal wall for any template. -/
theorem templates_yield_no_internal_walls (bhk : ℤ) :
    create_internal_walls (layoutRooms bhk) 0.15 3.5 0 = [] := by
  rcases layoutRooms_mem bhk with h | h | h | h <;> rw [h] <;> with_unfolding_all decide

/-- C5.  For room count 2 (any area) the Path-B scene contains exactly
the six expected room-floor nodes, exactly the four perimeter wall nodes
(and no other `Wall_`-prefixed node), four tree trunks, four tree
foliages, one ground and one driveway node. -/
theorem bhk2_scene_node_inventory (sqft : ℚ) :
    ((generate_realistic_house_glb 2 sqft).map Node.name).filter (fun n => strEnds n "_floor")
      = ["Living Room_floor", "Bedroom 1_floor", "Bedroom 2_floor", "Kitchen_floor",
         "Bathroom_floor", "Dining_floor"]
    ∧ ((generate_realistic_house_glb 2 sqft).map Node.name).filter (fun n => strStarts n "Wall_")
      = ["Wall_North", "Wall_South", "Wall_East", "Wall_West"]
    ∧ (((generate_realistic_house_glb 2 sqft).map Node.name).filter
        (fun n => strEnds n "_trunk")).length = 4
    ∧ (((generate_realistic_house_glb 2 sqft).map Node.name).filter
        (fun n => strEnds n "_foliage")).length = 4
    ∧ ((generate_realistic_house_glb 2 sqft).map Node.name).count "Ground" = 1
    ∧ ((generate_realistic_house_glb 2 sqft).map Node.name).count "Driveway" = 1 := by
  rw [grh_sqft_eq 2 sqft]
  with_unfolding_all decide

/-- C6.  Every room-count category yields a non-empty template whose
rooms all have positive width and depth and whose footprints are pairwise
disjoint (rectangle intersection area zero). -/
theorem templates_nonempty_disjoint (bhk : ℤ) :
    layoutRooms bhk ≠ []
    ∧ (∀ r ∈ layoutRooms bhk, 0 < r.w ∧ 0 < r.d)
    ∧ List.Pairwise (fun a b => interArea a b = 0) (layoutRooms bhk) := by
  rcases layoutRooms_mem bhk with h | h | h | h <;> rw [h] <;> with_unfolding_all decide

/-- C9.  The floor-plan renderer is a pure function of the room-count
category: its output hides no dependence on the area argument, and for
every category the markup string opens with the fixed 800×600 canvas
declaration. -/
theorem svg_renderer_pure (bhk : ℤ) (s1 s2 : ℚ) :
    generate_svg_floor_plan bhk s1 = generate_svg_floor_plan bhk s2
    ∧ strStarts (generate_svg_floor_plan bhk s1) "<svg width=\"800\" height=\"600\"" = true := by
  refine ⟨rfl, ?_⟩
  rcases svgRooms_mem bhk with h | h | h | h <;>
    · simp only [generate_svg_floor_plan]
      rw [h]
      with_unfolding_all decide

/-- C10.  The Path-B scene is independent of the total-area input: the
area is consumed only by the dead `total_area_m2`/`side_length`
computation, so any two positive areas give identical scenes. -/
theorem pathB_area_independent (bhk : ℤ) (s1 s2 : ℚ) (h1 : 0 < s1) (h2 : 0 < s2) :
    generate_realistic_house_glb bhk s1 = generate_realistic_house_glb bhk s2 := rfl

/-- C10, witness at room count 2, areas 500 and 1000. -/
theorem pathB_area_independent_witness :
    generate_realistic_house_glb 2 500 = generate_realistic_house_glb 2 1000 :=
  pathB_area_independent 2 500 1000 (by norm_num) (by norm_num)

/-- C1, counterexample.  A room entry that is a dict merely *missing*
`dimensions` does not raise: the missing key is absorbed by the default
10×10×10 ft dimensions and the builder stays on Path A, so the result is
a two-node Path-A scene, not the Path-B scene for the same inputs. -/
theorem glb_missing_dims_not_pathB :
    (generate_glb_from_json sampleMissingDims 2 1000).map Node.name = ["Master Bedroom", "floor"]
    ∧ generate_glb_from_json sampleMissingDims 2 1000 ≠ generate_realistic_house_glb 2 1000 := by
  with_unfolding_all decide

/-- C1, amended.  The builder is total and falls back to the Path-B scene
for the same room count and area exactly when the `rooms` value is absent
or falsy, or when processing the structured rooms raises (a non-dict room
entry, a wrong-typed `dimensions`/`position`/`name` field, a non-numeric
dimension, or a non-iterable rooms value); a dict room that merely lacks
keys is instead rendered on Path A with default values. -/
theorem glb_from_json_fallback (data : PyVal) (bhk : ℤ) (sqft : ℚ)
    (h : (roomsOf data).truthy = false ∨ buildPathA (roomsOf data) = Option.none) :
    generate_glb_from_json data bhk sqft = generate_realistic_house_glb bhk sqft := by
  unfold generate_glb_from_json
  rcases h with h | h
  · simp [h]
  · by_cases ht : (roomsOf data).truthy <;> simp [ht, h]

/-- C1, witness for `glb_from_json_fallback`: a rooms list containing the
non-dict entry `5` makes Path-A processing raise, and the result is the
Path-B scene. -/
theorem glb_from_json_fallback_witness :
    generate_glb_from_json sampleBadRoomEntry 2 1000 = generate_realistic_house_glb 2 1000 :=
  glb_from_json_fallback sampleBadRoomEntry 2 1000 (Or.inr (by with_unfolding_all decide))

/-- C3, counterexample.  Adjacency detection is order-sensitive, not
symmetric: two 4×4 rooms sharing the x = 4 edge produce one internal wall
when the left room is listed first and none when the rooms are listed the
other way around. -/
theorem adjacency_not_symmetric :
    (create_internal_walls
      [⟨"A", 0, 0, 4, 4, 3, []⟩, ⟨"B", 4, 0, 4, 4, 3, []⟩] 0.15 3.5 0).length = 1
    ∧ create_internal_walls
      [⟨"B", 4, 0, 4, 4, 3, []⟩, ⟨"A", 0, 0, 4, 4, 3, []⟩] 0.15 3.5 0 = [] := by
  with_unfolding_all decide

/-- C3, amended.  The pairwise scan tests each unordered pair once, in
list order, with an order-sensitive test: the pair produces a wall only
when the *earlier* room's right (resp. top) edge meets the later room's
left (resp. bottom) edge within the 0.1 tolerance.  A detected pair with
positive overlap yields exactly one wall — the vertical `vWallNode` or,
`elif`-style, the horizontal `hWallNode`, never two — spanning exactly
the shared overlap. -/
theorem internal_wall_pair_profile (wt wh z : ℚ) (A B : Room3) :
    (create_internal_walls [A, B] wt wh z).length ≤ 1
    ∧ (vertAdjacent A B → min (A.y + A.d) (B.y + B.d) > max A.y B.y →
        create_internal_walls [A, B] wt wh z = [vWallNode 0 wt wh z A B])
    ∧ (¬ vertAdjacent A B → horizAdjacent A B → min (A.x + A.w) (B.x + B.w) > max A.x B.x →
        create_internal_walls [A, B] wt wh z = [hWallNode 0 wt wh z A B]) := by
  have hw : create_internal_walls [A, B] wt wh z = wallsForPair 0 wt wh z A B := by
    simp [create_internal_walls, internalWallsGo]
  refine ⟨?_, ?_, ?_⟩
  · rw [hw]
    unfold wallsForPair
    split_ifs <;> simp
  · intro hv hov
    rw [hw]
    unfold wallsForPair
    rw [if_pos hv, if_pos hov]
  · intro hnv hh hov
    rw [hw]
    unfold wallsForPair
    rw [if_neg hnv, if_pos hh, if_pos hov]

/-- C3, witness for `internal_wall_pair_profile`: two 3×3 rooms sharing
the x = 3 edge yield exactly the one vertical wall spanning their
overlap. -/
theorem internal_wall_pair_profile_witness :
    create_internal_walls
      [⟨"L", 0, 0, 3, 3, 3, []⟩, ⟨"R", 3, 0, 3, 3, 3, []⟩] 0.15 3.5 0
      = [vWallNode 0 0.15 3.5 0 ⟨"L", 0, 0, 3, 3, 3, []⟩ ⟨"R", 3, 0, 3, 3, 3, []⟩] :=
  (internal_wall_pair_profile 0.15 3.5 0 ⟨"L", 0, 0, 3, 3, 3, []⟩ ⟨"R", 3, 0, 3, 3, 3, []⟩).2.1
    (by with_unfolding_all decide) (by with_unfolding_all decide)

/-- C7, counterexample.  For a well-formed structured description — one
room with every key present and well-typed, explicitly 10×10×10 ft at
position (0, 0) — the Path-A floor slab (footprint `[-1, maxX+1] ×
[-1, maxY+1]`) does not cover the room's box, whose half-extent
`10/3.28/2 ≈ 1.52` overhangs the floor's fixed −1 margin: the floor does
not cover the union of the supplied rooms' extents. -/
theorem pathA_floor_gap :
    ¬ (∀ n ∈ generate_glb_from_json sampleCenteredRoom 1 500, n.name ≠ "floor" →
        ∀ f ∈ generate_glb_from_json sampleCenteredRoom 1 500, f.name = "floor" →
          nodeCovered f n) := by
  with_unfolding_all decide

/-- C7, amended.  For a well-formed non-empty structured description the
scene is the supplied room boxes plus one floor slab whose footprint is
exactly `[-1, maxX+1] × [-1, maxY+1]`, where `maxX`/`maxY` are the maxima
of position + ft→m-converted length/width.  That slab covers every room's
*maximum* x/y extent with at least a 1-unit margin, but its minimum corner
is fixed at (−1, −1) regardless of the rooms, so a room box centred near
the origin can overhang it (room boxes are centred at their positions). -/
theorem pathA_floor_box (items : List PyVal) (rs : List RoomParsed) (bhk : ℤ) (sqft : ℚ)
    (hp : items.mapM parseRoom = some rs) (hne : rs ≠ [])
    (hdim : ∀ r ∈ rs, 0 ≤ r.lengthM ∧ 0 ≤ r.widthM) :
    generate_glb_from_json (PyVal.dict [("rooms", PyVal.list items)]) bhk sqft
      = rs.map roomNode ++ [floorNode (pathAMaxX rs) (pathAMaxY rs)]
    ∧ geomMinX (floorNode (pathAMaxX rs) (pathAMaxY rs)).geom = -1
    ∧ geomMinY (floorNode (pathAMaxX rs) (pathAMaxY rs)).geom = -1
    ∧ geomMaxX (floorNode (pathAMaxX rs) (pathAMaxY rs)).geom = pathAMaxX rs + 1
    ∧ geomMaxY (floorNode (pathAMaxX rs) (pathAMaxY rs)).geom = pathAMaxY rs + 1
    ∧ ∀ r ∈ rs, r.px + r.lengthM / 2 ≤ pathAMaxX rs + 1
        ∧ r.py + r.widthM / 2 ≤ pathAMaxY rs + 1 := by
  have hitems : items ≠ [] := by
    intro he
    subst he
    rw [show List.mapM parseRoom ([] : List PyVal) = some [] from rfl] at hp
    exact hne (Option.some.inj hp).symm
  refine ⟨?_, ?_, ?_, ?_, ?_, ?_⟩
  · have hro : roomsOf (PyVal.dict [("rooms", PyVal.list items)]) = PyVal.list items := rfl
    have htr : (PyVal.list items).truthy = true := by
      cases items with
      | nil => exact absurd rfl hitems
      | cons a t => rfl
    have hbp : buildPathA (PyVal.list items)
        = some (rs.map roomNode ++ [floorNode (pathAMaxX rs) (pathAMaxY rs)]) := by
      rw [show buildPathA (PyVal.list items)
            = (items.mapM parseRoom).bind
                (fun rs2 => some (rs2.map roomNode ++ [floorNode (pathAMaxX rs2) (pathAMaxY rs2)]))
          from rfl, hp]
      rfl
    simp [generate_glb_from_json, hro, htr, hbp]
  · simp only [floorNode, geomMinX]
    ring
  · simp only [floorNode, geomMinY]
    ring
  · simp only [floorNode, geomMaxX]
    ring
  · simp only [floorNode, geomMaxY]
    ring
  · intro r hr
    have hx : r.px + r.lengthM ≤ pathAMaxX rs := by
      unfold pathAMaxX
      exact pymax_ge _ 10 _ (List.mem_map_of_mem _ hr)
    have hy : r.py + r.widthM ≤ pathAMaxY rs := by
      unfold pathAMaxY
      exact pymax_ge _ 10 _ (List.mem_map_of_mem _ hr)
    have hd := hdim r hr
    constructor <;> linarith [hd.1, hd.2]

/-- C7, witness for `pathA_floor_box` on the well-formed one-room
description `samplePathARooms`. -/
theorem pathA_floor_box_witness :
    generate_glb_from_json (PyVal.dict [("rooms", PyVal.list samplePathARooms)]) 1 500
      = samplePathAParsed.map roomNode
        ++ [floorNode (pathAMaxX samplePathAParsed) (pathAMaxY samplePathAParsed)]
    ∧ geomMinX (floorNode (pathAMaxX samplePathAParsed) (pathAMaxY samplePathAParsed)).geom = -1
    ∧ geomMinY (floorNode (pathAMaxX samplePathAParsed) (pathAMaxY samplePathAParsed)).geom = -1
    ∧ geomMaxX (floorNode (pathAMaxX samplePathAParsed) (pathAMaxY samplePathAParsed)).geom
        = pathAMaxX samplePathAParsed + 1
    ∧ geomMaxY (floorNode (pathAMaxX samplePathAParsed) (pathAMaxY samplePathAParsed)).geom
        = pathAMaxY samplePathAParsed + 1
    ∧ ∀ r ∈ samplePathAParsed, r.px + r.lengthM / 2 ≤ pathAMaxX samplePathAParsed + 1
        ∧ r.py + r.widthM / 2 ≤ pathAMaxY samplePathAParsed + 1 :=
  pathA_floor_box samplePathARooms samplePathAParsed 1 500
    (by with_unfolding_all decide) (by with_unfolding_all decide)
    (by with_unfolding_all decide)

/-- C8.  For every room-count category (and any area) the Path-B scene
contains exactly four perimeter wall nodes — north, south, east, west, in
that order and no others — each a box of planar thickness 0.25 and height
3.5, flush against the outside of the rooms' bounding box
`(0,0)-(maxX,maxY)`: the north wall's outer face touches y = 0, the south
wall's inner face touches y = maxY, the east wall's outer face touches
x = 0, and the west wall's inner face touches x = maxX. -/
theorem perimeter_walls_exact (bhk : ℤ) (sqft : ℚ) :
    (generate_realistic_house_glb bhk sqft).filter
        (fun n => ["Wall_North", "Wall_South", "Wall_East", "Wall_West"].contains n.name)
      = [wall_north (templateMaxX bhk), wall_south (templateMaxX bhk) (templateMaxY bhk),
         wall_east (templateMaxY bhk), wall_west (templateMaxX bhk) (templateMaxY bhk)]
    ∧ geomMaxY (wall_north (templateMaxX bhk)).geom = 0
    ∧ geomMinY (wall_south (templateMaxX bhk) (templateMaxY bhk)).geom = templateMaxY bhk
    ∧ geomMaxX (wall_east (templateMaxY bhk)).geom = 0
    ∧ geomMinX (wall_west (templateMaxX bhk) (templateMaxY bhk)).geom = templateMaxX bhk
    ∧ geomPlanarThickness (wall_north (templateMaxX bhk)).geom = 0.25
    ∧ geomPlanarThickness (wall_south (templateMaxX bhk) (templateMaxY bhk)).geom = 0.25
    ∧ geomPlanarThickness (wall_east (templateMaxY bhk)).geom = 0.25
    ∧ geomPlanarThickness (wall_west (templateMaxX bhk) (templateMaxY bhk)).geom = 0.25
    ∧ geomZExtent (wall_north (templateMaxX bhk)).geom = 3.5
    ∧ geomZExtent (wall_south (templateMaxX bhk) (templateMaxY bhk)).geom = 3.5
    ∧ geomZExtent (wall_east (templateMaxY bhk)).geom = 3.5
    ∧ geomZExtent (wall_west (templateMaxX bhk) (templateMaxY bhk)).geom = 3.5 := by
  rw [grh_sqft_eq bhk sqft]
  simp only [generate_realistic_house_glb, templateMaxX, templateMaxY]
  rcases layoutRooms_mem bhk with h | h | h | h <;> rw [h] <;> with_unfolding_all decide

end LandCraft
